import Mathlib

/-!
Verification of the restaurant-analytics NL-to-SQL workflow
(`backend/agent_framework.py` and the agent modules it orchestrates).

The Python sources are shallowly embedded as executable Lean definitions:

* strings are Lean `String`s; Python substring tests (`x in s`), `str.upper`,
  `str.lower`, `str.strip`, `str.startswith` are modelled by the helpers below;
* the few regular expressions the code searches for are modelled directly as
  whole-word / whitespace-pattern scanners over the character list (word
  characters are modelled as ASCII alphanumerics plus underscore, matching the
  ASCII SQL and vocabulary the system works with);
* validator error and warning messages are represented by structured tags, one
  constructor per emission site in the source, preserving the identity, count
  and order of every emitted error/warning;
* floating-point confidences are modelled as rationals (all constants involved,
  0.6, 0.75, 0.08, 0.95, are compared only at thresholds where the two
  semantics agree);
* the two LLM round-trips (intent/schema classification and SQL generation)
  are modelled by oracle parameters describing the parsed outcome of the call,
  and the per-intent regex match counts of the rule-based classifier are
  abstracted as a score oracle; everything downstream of those calls is
  translated from the source.
-/

/-! ## String scanning utilities -/

/-- Does `p` lead the character list `s`? (`str.startswith`, on char lists). -/
def charSeqLeads : List Char → List Char → Bool
  | [], _ => true
  | _ :: _, [] => false
  | a :: as, b :: bs => a == b && charSeqLeads as bs

/-- Does `needle` occur as a contiguous subsequence of `hay`? (Python `needle in hay`.) -/
def charSeqOccurs (needle : List Char) : List Char → Bool
  | [] => charSeqLeads needle []
  | c :: rest => charSeqLeads needle (c :: rest) || charSeqOccurs needle rest

/-- Python `needle in hay` on strings. -/
def strContains (hay needle : String) : Bool :=
  charSeqOccurs needle.data hay.data

/-- Python `s.startswith(p)`. -/
def strStarts (s p : String) : Bool :=
  charSeqLeads p.data s.data

/-- Regex word character `\w` (ASCII model): alphanumeric or underscore. -/
def isWordChar (c : Char) : Bool :=
  c.isAlphanum || c == Char.ofNat 95

/-- Remainder of `s` after consuming the literal sequence `p`, if it leads `s`. -/
def restAfter : List Char → List Char → Option (List Char)
  | [], s => some s
  | _ :: _, [] => none
  | a :: as, b :: bs => if a == b then restAfter as bs else none

/-- A `\b` boundary holds at the start of `s` (end of a match). -/
def boundaryAfter : List Char → Bool
  | [] => true
  | c :: _ => !isWordChar c

/-- Regex `\s` (whitespace). -/
def isPySpace (c : Char) : Bool := c.isWhitespace

/-- Drop a maximal run of whitespace (`\s*` before a non-space literal). -/
def dropSpaces : List Char → List Char
  | [] => []
  | c :: rest => if isPySpace c then dropSpaces rest else c :: rest

/-- One item of the small regex fragments used by the source: a literal
character, `\s*`, or `\s+`. -/
inductive RItem
  | lit (c : Char)
  | star
  | plus
deriving DecidableEq

/-- Match a pattern at the head of `s`, returning the rest on success.
Every `\s*`/`\s+` in the source patterns is followed by a non-space literal,
so consuming a maximal whitespace run is equivalent to backtracking. -/
def rmatch : List RItem → List Char → Option (List Char)
  | [], s => some s
  | RItem.lit _ :: _, [] => none
  | RItem.lit a :: ps, b :: bs => if a == b then rmatch ps bs else none
  | RItem.star :: ps, s => rmatch ps (dropSpaces s)
  | RItem.plus :: _, [] => none
  | RItem.plus :: ps, c :: rest =>
      if isPySpace c then rmatch ps (dropSpaces rest) else none

/-- The `re.search` of an unanchored pattern: does it match at some position? -/
def rsearch (pat : List RItem) : List Char → Bool
  | [] => (rmatch pat []).isSome
  | c :: rest => (rmatch pat (c :: rest)).isSome || rsearch pat rest

/-- Literal characters of a string as pattern items. -/
def litSeq (s : String) : List RItem :=
  s.data.map RItem.lit

/-- Word-bounded match of `pat` at the head of `s` (the end `\b`). -/
def wordPatHere (pat : List RItem) (s : List Char) : Bool :=
  match rmatch pat s with
  | some rest => boundaryAfter rest
  | none => false

/-- Scan for `\b pat \b`, tracking whether the previous character was a word
character (the leading `\b`). -/
def wordPatAux (pat : List RItem) (prevIsWord : Bool) : List Char → Bool
  | [] => false
  | c :: rest =>
      (!prevIsWord && wordPatHere pat (c :: rest)) || wordPatAux pat (isWordChar c) rest

/-- The `re.search(r"\b...\b", hay)` for the given pattern body. -/
def strWordPat (hay : String) (pat : List RItem) : Bool :=
  wordPatAux pat false hay.data

/-- The `re.search(rf"\b{kw}\b", hay)` for a literal word `kw`. -/
def strWordOccurs (hay kw : String) : Bool :=
  strWordPat hay (litSeq kw)

/-- The single-quote character, `chr(39)`. -/
def sqc : Char := Char.ofNat 39

/-- Python `s.lower()` (ASCII model, via `Char.toLower`). -/
def strLower (s : String) : String :=
  String.mk (s.data.map Char.toLower)

/-- Python `s.upper()` (ASCII model, via `Char.toUpper`). -/
def strUpper (s : String) : String :=
  String.mk (s.data.map Char.toUpper)

/-- Python `s.strip()`: drop leading and trailing whitespace. -/
def strTrim (s : String) : String :=
  String.mk ((dropSpaces (dropSpaces s.data).reverse).reverse)

/-! ## `backend/utils/validators.py` — `SQLValidator` -/

/-- Tags for the validator error messages, one per emission site in
`backend/utils/validators.py`, `backend/agents/sql_validator.py` and
`backend/agents/sql_generator.py`. -/
inductive VErr
  | dangerousKeyword (kw : String)
  | mustStartWithSelect
  | centsWithoutDivision
  | missingVoidedFilter
  | injectionPattern
  | aggregateWithoutGroupBy
  | noSqlGenerated
  | generatorParseFailure
  | generatorException (msg : String)
deriving DecidableEq

/-- Tags for the validator warning messages, one per emission site. -/
inductive VWarn
  | voidedTrueSelected
  | viewDivision
  | noLimit
  | selectStarOnBase
  | tablesNotUsed (expected : List String)
  | groupByNoOrderBy
  | noDateFilter
  | viewsRecommendedNotUsed
deriving DecidableEq

structure ValidationResult where
  is_valid : Bool
  errors : List VErr
  warnings : List VWarn
deriving DecidableEq

namespace SQLValidator

def DANGEROUS_KEYWORDS : List String :=
  ["DROP", "DELETE", "UPDATE", "INSERT", "ALTER", "CREATE", "TRUNCATE",
   "GRANT", "REVOKE", "EXECUTE", "EXEC", "MERGE", "REPLACE"]

def CENTS_TABLES : List String :=
  ["unified_orders", "unified_order_items", "unified_payments"]

def CENTS_COLUMNS : List String :=
  ["subtotal_cents", "tax_cents", "tip_cents", "service_fee_cents",
   "delivery_fee_cents", "discount_cents", "total_cents", "commission_cents",
   "merchant_payout_cents", "unit_price_cents", "total_price_cents",
   "amount_cents", "processing_fee_cents", "price_cents"]

def DOLLAR_VIEWS : List String :=
  ["mv_daily_sales_summary", "mv_product_sales_summary", "mv_hourly_sales_pattern",
   "mv_payment_methods_by_source", "mv_order_type_performance", "mv_category_sales_summary",
   "mv_location_performance", "mv_product_location_sales"]

/-- The six `injection_patterns` regexes, searched over the uppercased SQL. -/
def injection_patterns : List (List RItem) :=
  [ [RItem.lit (Char.ofNat 59), RItem.star, RItem.lit (Char.ofNat 45), RItem.lit (Char.ofNat 45)],
    [RItem.lit sqc, RItem.star] ++ litSeq "OR" ++ [RItem.star, RItem.lit sqc, RItem.lit (Char.ofNat 49),
      RItem.lit sqc, RItem.star, RItem.lit (Char.ofNat 61), RItem.star, RItem.lit sqc, RItem.lit (Char.ofNat 49)],
    [RItem.lit sqc, RItem.star] ++ litSeq "OR" ++ [RItem.star, RItem.lit (Char.ofNat 49),
      RItem.star, RItem.lit (Char.ofNat 61), RItem.star, RItem.lit (Char.ofNat 49)],
    litSeq "UNION" ++ [RItem.plus] ++ litSeq "SELECT",
    litSeq "INTO" ++ [RItem.plus] ++ litSeq "OUTFILE",
    litSeq "LOAD_FILE" ]

/-- The `SQLValidator.validate`: the eight checks of
`backend/utils/validators.py`, in source order. -/
def validate (sql : String) : ValidationResult :=
  let sql_upper := strUpper sql
  let sql_lower := strLower sql
  -- Check 1: dangerous keywords as whole words
  let errors1 := DANGEROUS_KEYWORDS.filterMap fun kw =>
    if strWordOccurs sql_upper kw then some (VErr.dangerousKeyword kw) else none
  -- Check 2: must start with SELECT or WITH
  let sql_stripped := strUpper (strTrim sql)
  let errors2 :=
    if !(strStarts sql_stripped "SELECT" || strStarts sql_stripped "WITH") then
      [VErr.mustStartWithSelect]
    else []
  -- Check 3: cents columns without conversion
  let uses_cents_column := CENTS_COLUMNS.any fun col => strContains sql_lower col
  let uses_base_table := CENTS_TABLES.any fun table => strContains sql_lower table
  let has_division := strContains sql "/100" || strContains sql "/ 100"
  let errors3 :=
    if uses_cents_column && uses_base_table && !has_division then
      [VErr.centsWithoutDivision]
    else []
  -- Check 4: voided filter for unified_orders
  let ew4 : List VErr × List VWarn :=
    if strContains sql_lower "unified_orders" then
      if !strContains sql_lower "voided" then ([VErr.missingVoidedFilter], [])
      else if strContains sql_lower "voided = true" || strContains sql_lower "voided=true" then
        ([], [VWarn.voidedTrueSelected])
      else ([], [])
    else ([], [])
  -- Check 5: dividing values of a pre-aggregated view
  let uses_view := DOLLAR_VIEWS.any fun view => strContains sql_lower view
  let warns5 :=
    if uses_view && has_division && !strContains sql_lower "cents" then
      [VWarn.viewDivision]
    else []
  -- Check 6: SQL injection patterns (one error, then break)
  let errors6 :=
    if injection_patterns.any fun pat => rsearch pat sql_upper.data then
      [VErr.injectionPattern]
    else []
  -- Check 7: no LIMIT clause
  let warns7 :=
    if !strContains sql_upper "LIMIT" && !strContains sql_upper "COUNT(" then
      if !strContains sql_upper "GROUP BY" then [VWarn.noLimit] else []
    else []
  -- Check 8: SELECT * on base tables
  let warns8 :=
    if strContains sql_upper "SELECT *" && !strContains sql_lower "mv_"
        && strContains sql_lower "unified_" then
      [VWarn.selectStarOnBase]
    else []
  let errors := errors1 ++ errors2 ++ errors3 ++ ew4.1 ++ errors6
  let warnings := ew4.2 ++ warns5 ++ warns7 ++ warns8
  { is_valid := errors.isEmpty, errors := errors, warnings := warnings }

end SQLValidator

example : (SQLValidator.validate "SELECT total_cents FROM unified_orders WHERE voided = FALSE").errors
    = [VErr.centsWithoutDivision] := by decide

example : (SQLValidator.validate "DROP TABLE users").errors
    = [VErr.dangerousKeyword "DROP", VErr.mustStartWithSelect] := by decide

/-! ## `backend/models/state.py` — data model -/

/-- The `QueryIntent` enum. -/
inductive QueryIntent
  | sales_analysis
  | product_analysis
  | location_comparison
  | time_series
  | payment_analysis
  | order_type_analysis
  | source_comparison
  | performance_metrics
  | category_analysis
  | customer_analysis
  | unknown
deriving DecidableEq

/-- The `QueryIntent(intent_str)`: parse the enum value string (raises → `none`). -/
def QueryIntent.ofValue : String → Option QueryIntent
  | "sales_analysis" => some .sales_analysis
  | "product_analysis" => some .product_analysis
  | "location_comparison" => some .location_comparison
  | "time_series" => some .time_series
  | "payment_analysis" => some .payment_analysis
  | "order_type_analysis" => some .order_type_analysis
  | "source_comparison" => some .source_comparison
  | "performance_metrics" => some .performance_metrics
  | "category_analysis" => some .category_analysis
  | "customer_analysis" => some .customer_analysis
  | "unknown" => some .unknown
  | _ => none

/-- The `TimeRange` TypedDict. -/
structure TimeRange where
  start_date : Option String := none
  end_date : Option String := none
  relative : Option String := none
deriving DecidableEq

/-- Python truthiness of an optional string (`None` and `""` are falsy). -/
def optTruthy : Option String → Bool
  | none => false
  | some s => !(s == "")

/-- The `ExtractedEntities` TypedDict. -/
structure ExtractedEntities where
  locations : List String := []
  products : List String := []
  categories : List String := []
  order_types : List String := []
  payment_types : List String := []
  sources : List String := []
  metrics : List String := []
  limit : Option Nat := none
deriving DecidableEq

/-- The `JoinInfo` TypedDict. -/
structure JoinInfo where
  from_table : String
  to_table : String
  join_condition : String
  join_type : String
deriving DecidableEq

/-- The `AgentState` TypedDict, restricted to the fields read or written by
the four workflow nodes and the routers (the execution / visualization /
answer fields are populated outside the graph and never touched inside it). -/
structure AgentState where
  user_query : String := ""
  conversation_history : List (String × String) := []
  query_intent : QueryIntent := .unknown
  intent_confidence : ℚ := 0
  entities_extracted : ExtractedEntities := {}
  time_range : TimeRange := {}
  relevant_tables : List String := []
  relevant_columns : List (String × List String) := []
  required_joins : List JoinInfo := []
  schema_considerations : List String := []
  use_views : Bool := false
  generated_sql : String := ""
  sql_explanation : String := ""
  expected_columns : List String := []
  sql_validation_passed : Bool := false
  sql_errors : List VErr := []
  sql_warnings : List VWarn := []
  execution_error : Option String := none
  results_valid : Bool := true
  result_validation_issue : String := ""
  sql_corrected : Bool := false
  needs_clarification : Bool := false
  clarification_question : String := ""
  retry_count : Nat := 0
  max_retries : Nat := 1
  result_retry_count : Nat := 0
  agent_trace : List String := []
deriving DecidableEq

/-- The `create_initial_state`. -/
def create_initial_state (user_query : String)
    (conversation_history : List (String × String) := []) : AgentState :=
  { user_query := user_query
    conversation_history := conversation_history
    query_intent := .unknown
    intent_confidence := 0
    entities_extracted := {}
    time_range := {}
    relevant_tables := []
    relevant_columns := []
    required_joins := []
    schema_considerations := []
    use_views := false
    generated_sql := ""
    sql_explanation := ""
    expected_columns := []
    sql_validation_passed := false
    sql_errors := []
    sql_warnings := []
    execution_error := none
    results_valid := true
    result_validation_issue := ""
    sql_corrected := false
    needs_clarification := false
    clarification_question := ""
    retry_count := 0
    max_retries := 1
    result_retry_count := 0
    agent_trace := [] }

/-! ## `backend/config/schema_knowledge.py` — entity vocabularies -/

namespace SchemaKnowledge

/-- The `entity_mappings["locations"]`, in dict insertion order. -/
def locations : List (String × String) :=
  [("downtown", "DOWNTOWN"), ("airport", "AIRPORT"), ("mall", "MALL"),
   ("university", "UNIVERSITY"), ("uni", "UNIVERSITY")]

/-- The `entity_mappings["categories"]`, in dict insertion order. -/
def categories : List (String × String) :=
  [("burgers", "Burgers"), ("burger", "Burgers"), ("sides", "Sides"), ("side", "Sides"),
   ("beverages", "Beverages"), ("beverage", "Beverages"), ("drinks", "Beverages"),
   ("drink", "Beverages"), ("sandwiches", "Sandwiches"), ("sandwich", "Sandwiches"),
   ("breakfast", "Breakfast"), ("salads", "Salads"), ("salad", "Salads"),
   ("entrees", "Entrees"), ("entree", "Entrees"), ("appetizers", "Appetizers"),
   ("appetizer", "Appetizers"), ("cocktails", "Cocktails"), ("cocktail", "Cocktails"),
   ("steaks", "Steaks"), ("steak", "Steaks"), ("alcohol", "Alcohol"),
   ("wraps", "Wraps"), ("wrap", "Wraps"), ("seafood", "Seafood"), ("pasta", "Pasta"),
   ("desserts", "Desserts"), ("dessert", "Desserts"), ("coffee", "Coffee")]

/-- The `entity_mappings["order_types"]`, in dict insertion order. -/
def order_types : List (String × String) :=
  [("dine in", "DINE_IN"), ("dine-in", "DINE_IN"), ("takeout", "TAKE_OUT"),
   ("take out", "TAKE_OUT"), ("take-out", "TAKE_OUT"), ("delivery", "DELIVERY"),
   ("pickup", "PICKUP"), ("pick up", "PICKUP"), ("pick-up", "PICKUP")]

/-- The `entity_mappings["sources"]`, in dict insertion order. -/
def sources : List (String × String) :=
  [("toast", "toast"), ("doordash", "doordash"), ("door dash", "doordash"),
   ("square", "square")]

/-- The `entity_mappings["payment_types"]`, in dict insertion order. -/
def payment_types : List (String × String) :=
  [("credit", "CREDIT"), ("credit card", "CREDIT"), ("debit", "DEBIT"),
   ("debit card", "DEBIT"), ("cash", "CASH"), ("apple pay", "WALLET"),
   ("google pay", "WALLET"), ("wallet", "WALLET")]

end SchemaKnowledge

/-- Python dict lookup `m[k]` over an insertion-ordered association list
(`none` models `k not in m`). -/
def vocabLookup (m : List (String × String)) (k : String) : Option String :=
  match m with
  | [] => none
  | (a, b) :: rest => if a == k then some b else vocabLookup rest k

/-! ## `backend/agents/intent_and_schema_agent.py` — entity normalizers -/

/-- The `_normalize_locations`. -/
def normalize_locations (locations : List String) : List String :=
  locations.map fun loc =>
    let loc_lower := strLower loc
    match vocabLookup SchemaKnowledge.locations loc_lower with
    | some v => v
    | none => strUpper loc

/-- The `_normalize_order_types`. -/
def normalize_order_types (order_types : List String) : List String :=
  order_types.map fun ot =>
    let ot_lower := strLower ot
    match vocabLookup SchemaKnowledge.order_types ot_lower with
    | some v => v
    | none => strUpper ot

/-- The `_normalize_payment_types`. -/
def normalize_payment_types (payment_types : List String) : List String :=
  payment_types.map fun pt =>
    let pt_lower := strLower pt
    match vocabLookup SchemaKnowledge.payment_types pt_lower with
    | some v => v
    | none => strUpper pt

/-- The `_normalize_sources`. Note the fallback: unseen sources come back
lowercased, not uppercased. -/
def normalize_sources (sources : List String) : List String :=
  sources.map fun src =>
    let src_lower := strLower src
    match vocabLookup SchemaKnowledge.sources src_lower with
    | some v => v
    | none => src_lower

/-- The exact-format category list checked by `_normalize_categories`. -/
def exactCategoryNames : List String :=
  ["Burgers", "Sides", "Beverages", "Sandwiches", "Breakfast", "Salads",
   "Entrees", "Appetizers", "Cocktails", "Steaks", "Alcohol", "Wraps",
   "Seafood", "Pasta", "Desserts", "Coffee"]

/-- The `_normalize_categories`. Note the fallback: both arms of the
exact-format check append the original token unchanged. -/
def normalize_categories (categories : List String) : List String :=
  categories.map fun cat =>
    let cat_lower := strLower cat
    match vocabLookup SchemaKnowledge.categories cat_lower with
    | some v => v
    | none => if exactCategoryNames.contains cat then cat else cat

example : normalize_locations ["downtown", "Foo"] = ["DOWNTOWN", "FOO"] := by decide
example : normalize_sources ["Toast", "Foo"] = ["toast", "foo"] := by decide

/-! ## `_extract_basic_entities` and `_extract_time_range` -/

/-- Stable insertion of an association pair into a list sorted by strictly
decreasing key length (keeps insertion order among equal lengths). -/
def insertByLenDesc (x : String × String) : List (String × String) → List (String × String)
  | [] => [x]
  | y :: ys => if x.1.length > y.1.length then x :: y :: ys else y :: insertByLenDesc x ys

/-- Python `sorted(items, key=lambda x: len(x[0]), reverse=True)` (stable). -/
def sortByLenDesc : List (String × String) → List (String × String)
  | [] => []
  | x :: xs => insertByLenDesc x (sortByLenDesc xs)

/-- Maximal run of digits at the head, and the rest (`(\d+)` greedy). -/
def takeDigits : List Char → List Char × List Char
  | [] => ([], [])
  | c :: rest =>
      if c.isDigit then
        let p := takeDigits rest
        (c :: p.1, p.2)
      else ([], c :: rest)

/-- The `int(...)` on a digit string. -/
def digitsToNat (ds : List Char) : Nat :=
  ds.foldl (fun n c => n * 10 + (c.toNat - 48)) 0

/-- Match `w\s+(\d+)\b` at the head of `s`, returning the captured number. -/
def limitAfterWord (w : String) (s : List Char) : Option Nat :=
  match restAfter w.data s with
  | some (c :: rest) =>
      if isPySpace c then
        let p := takeDigits (dropSpaces rest)
        if !p.1.isEmpty && boundaryAfter p.2 then some (digitsToNat p.1) else none
      else none
  | some [] => none
  | none => none

/-- Match `(top|best|worst)\s+(\d+)\b` at the head of `s` (alternation order
as in the source pattern). -/
def limitMatchHere (s : List Char) : Option Nat :=
  limitAfterWord "top" s <|> limitAfterWord "best" s <|> limitAfterWord "worst" s

/-- The `re.search(r"\b(top|best|worst)\s+(\d+)\b", query_lower)`, leftmost match,
returning capture group 2 as a number. -/
def findLimit (prevIsWord : Bool) : List Char → Option Nat
  | [] => none
  | c :: rest =>
      (if !prevIsWord then limitMatchHere (c :: rest) else none)
        <|> findLimit (isWordChar c) rest

/-- The `_extract_basic_entities`. -/
def extract_basic_entities (query : String) : ExtractedEntities :=
  let query_lower := strLower query
  let locations := SchemaKnowledge.locations.filterMap fun kv =>
    if strContains query_lower kv.1 then some kv.2 else none
  let sorted_categories := sortByLenDesc SchemaKnowledge.categories
  let categories := sorted_categories.foldl
    (fun acc kv =>
      if strWordOccurs query_lower kv.1 then
        if acc.contains kv.2 then acc else acc ++ [kv.2]
      else acc)
    []
  let order_types := SchemaKnowledge.order_types.filterMap fun kv =>
    if strContains query_lower kv.1 then some kv.2 else none
  let sources := SchemaKnowledge.sources.filterMap fun kv =>
    if strContains query_lower kv.1 then some kv.2 else none
  let limit := findLimit false query_lower.data
  let payment_keywords := ["credit", "debit", "cash", "card", "apple pay", "google pay"]
  let payment_types := payment_keywords.filterMap fun payment =>
    if strContains query_lower payment then some (strUpper payment) else none
  { locations := locations, products := [], categories := categories,
    order_types := order_types, payment_types := payment_types,
    sources := sources, metrics := [], limit := limit }

/-- Word-bounded pattern `w1\s+w2` (for alternatives like `last\s+week`). -/
def twoWordPat (w1 w2 : String) : List RItem :=
  litSeq w1 ++ [RItem.plus] ++ litSeq w2

/-- The `_extract_time_range`: the relative-token `if/elif` chain.  (The trailing
January-date regex match is a no-op in the source — `pass` — and is omitted.) -/
def extract_time_range (query : String) : TimeRange :=
  let query_lower := strLower query
  let relative : Option String :=
    if strWordOccurs query_lower "yesterday" || strWordOccurs query_lower "yday" then
      some "yesterday"
    else if strWordOccurs query_lower "today" then some "today"
    else if strWordPat query_lower (twoWordPat "last" "week")
        || strWordPat query_lower (twoWordPat "past" "week") then some "last_week"
    else if strWordPat query_lower (twoWordPat "last" "month")
        || strWordPat query_lower (twoWordPat "past" "month") then some "last_month"
    else if strWordOccurs query_lower "daily"
        || strWordPat query_lower (twoWordPat "per" "day")
        || strWordPat query_lower (twoWordPat "by" "day") then some "daily"
    else if strWordOccurs query_lower "hourly"
        || strWordPat query_lower (twoWordPat "per" "hour")
        || strWordPat query_lower (twoWordPat "by" "hour") then some "hourly"
    else none
  { start_date := none, end_date := none, relative := relative }

/-! ## `rule_based_intent_detection` -/

/-- The keys of `INTENT_PATTERNS`, in dict insertion order. -/
def intentOrder : List QueryIntent :=
  [.sales_analysis, .product_analysis, .location_comparison, .time_series,
   .payment_analysis, .order_type_analysis, .source_comparison,
   .category_analysis, .performance_metrics, .customer_analysis]

/-- The `category_names` list used for the category-analysis score boost. -/
def categoryBoostNames : List String :=
  ["burgers", "sides", "beverages", "sandwiches", "breakfast", "salads",
   "entrees", "appetizers", "cocktails", "steaks", "alcohol", "wraps",
   "seafood", "pasta", "desserts", "coffee"]

/-- The `category_mentions`: how many category names occur word-bounded in the
lowercased query. -/
def catMentions (query_lower : String) : Nat :=
  (categoryBoostNames.filter fun cat => strWordOccurs query_lower cat).length

/-- The `intent_scores` dict (insertion-ordered association list) after the
scoring loop and the category boost.  `score` abstracts the total regex match
count of each intent family over the lowercased query. -/
def ruleIntentScores (score : QueryIntent → Nat) (query_lower : String) :
    List (QueryIntent × Nat) :=
  let intent_scores := intentOrder.filterMap fun i =>
    if score i > 0 then some (i, score i) else none
  if intent_scores.any fun p => p.1 == QueryIntent.category_analysis then
    let category_mentions := catMentions query_lower
    if category_mentions > 0 then
      intent_scores.map fun p =>
        if p.1 == QueryIntent.category_analysis then (p.1, p.2 + min 2 category_mentions)
        else p
    else intent_scores
  else intent_scores

/-- Python `max(items, key=lambda x: x[1])`: the first pair attaining the
maximal value. -/
def firstMaxPair : List (QueryIntent × Nat) → Option (QueryIntent × Nat)
  | [] => none
  | x :: xs => some (xs.foldl (fun b y => if y.2 > b.2 then y else b) x)

/-- The `max(intent_scores.values())` (0 on the empty list, which the source
never queries). -/
def maxScoreOf (scores : List (QueryIntent × Nat)) : Nat :=
  (scores.map Prod.snd).foldr Nat.max 0

/-- The `sorted(intent_scores.values(), reverse=True)[1] if len > 1 else 0`. -/
def secondScoreOf (scores : List (QueryIntent × Nat)) : Nat :=
  if scores.length > 1 then
    ((scores.map Prod.snd).erase (maxScoreOf scores)).foldr Nat.max 0
  else 0

/-- The `rule_based_intent_detection`, with the regex match totals abstracted as
the `score` oracle. -/
def rule_based_intent_detection (score : QueryIntent → Nat) (query : String) :
    Option (QueryIntent × ℚ) :=
  let query_lower := strLower query
  let intent_scores := ruleIntentScores score query_lower
  if intent_scores.isEmpty then none
  else
    match firstMaxPair intent_scores with
    | none => none
    | some best =>
        let intent := best.1
        let max_score := maxScoreOf intent_scores
        let second_best_score := secondScoreOf intent_scores
        if 2 ≤ max_score && (second_best_score == 0 || 2 * second_best_score ≤ max_score) then
          -- the exact rational value of `min(0.95, 0.75 + (max_score - 2) * 0.08)`
          -- (see theorem `ruleConfidenceFormula`)
          some (intent, mkRat (min 95 (75 + 8 * (max_score - 2))) 100)
        else if 1 ≤ max_score then
          if second_best_score == 0 then some (intent, mkRat 75 100)
          else some (intent, mkRat 6 10)
        else none

/-! ## `_fallback_schema_analysis` -/

/-- Keywords forcing base-table selection in `_fallback_schema_analysis`. -/
def baseTableKeywords : List String :=
  ["order details", "individual order", "list orders", "show orders",
   "specific order", "order #", "order number", "items in", "line items",
   "payment details", "card brand", "card type", "tip per", "server",
   "employee", "customer name", "refund", "modifier", "special instruction",
   "notes"]

/-- The payment-view keyword list (written three times verbatim in the
source dict entry for `PAYMENT_ANALYSIS`). -/
def paymentViewKeywords : List String :=
  ["most used", "payment method", "payment methods", "compare payment",
   "payment breakdown", "top payment"]

/-- The `_fallback_schema_analysis`: the `intent_to_tables` mapping, the
base-table keyword override, and the state update. -/
def fallback_schema_analysis (st : AgentState) : AgentState :=
  let intent := st.query_intent
  let query := strLower st.user_query
  let needs_base_tables := baseTableKeywords.any fun keyword => strContains query keyword
  let config : List String × List (String × List String) × Bool :=
    match intent with
    | .sales_analysis =>
        ((if !needs_base_tables then ["mv_daily_sales_summary"]
          else ["unified_orders", "unified_locations"]),
         (if !needs_base_tables then
            [("mv_daily_sales_summary",
              ["order_date", "location_code", "location_name", "total_revenue",
               "net_revenue", "order_count"])]
          else [("unified_orders", ["order_id", "order_date", "total_cents", "voided"])]),
         !needs_base_tables)
    | .product_analysis =>
        ((if !needs_base_tables then ["mv_product_sales_summary"]
          else ["unified_order_items", "unified_products"]),
         (if !needs_base_tables then
            [("mv_product_sales_summary",
              ["product", "category_name", "total_quantity_sold", "total_revenue",
               "order_count"])]
          else [("unified_order_items", ["product_name", "quantity", "total_price_cents"])]),
         !needs_base_tables)
    | .location_comparison =>
        (["mv_location_performance", "mv_daily_sales_summary"],
         [("mv_location_performance",
           ["location_code", "location_name", "total_revenue", "order_count",
            "avg_order_value"]),
          ("mv_daily_sales_summary",
           ["location_code", "location_name", "total_revenue", "order_count"])],
         true)
    | .time_series =>
        ((if !strContains query "hour" then ["mv_daily_sales_summary"]
          else ["mv_hourly_sales_pattern"]),
         [("mv_daily_sales_summary",
           ["order_date", "total_revenue", "order_count", "location_code"]),
          ("mv_hourly_sales_pattern",
           ["order_date", "order_hour", "total_revenue", "order_count", "location_code"])],
         true)
    | .payment_analysis =>
        ((if paymentViewKeywords.any (fun keyword => strContains query keyword) then
            ["mv_payment_methods_by_source"]
          else ["unified_payments", "unified_orders"]),
         (if paymentViewKeywords.any (fun keyword => strContains query keyword) then
            [("mv_payment_methods_by_source",
              ["payment_type", "source_system", "transaction_count", "total_amount"])]
          else
            [("unified_payments", ["payment_type", "card_brand", "amount_cents", "tip_cents"]),
             ("unified_orders", ["order_id", "voided"])]),
         paymentViewKeywords.any fun keyword => strContains query keyword)
    | .order_type_analysis =>
        (["mv_order_type_performance"],
         [("mv_order_type_performance",
           ["order_type", "source_system", "location_code", "order_count",
            "net_revenue", "gross_revenue", "avg_order_value"])],
         true)
    | .category_analysis =>
        (["mv_category_sales_summary"],
         [("mv_category_sales_summary",
           ["category_name", "total_revenue", "total_quantity_sold", "product_count"])],
         true)
    | _ =>
        (["mv_daily_sales_summary"],
         [("mv_daily_sales_summary",
           ["order_date", "total_revenue", "order_count", "location_code"])],
         true)
  { st with
    relevant_tables := config.1
    relevant_columns := config.2.1
    required_joins := []
    schema_considerations :=
      ["Using fallback schema analysis", "Views already have values in dollars",
       "Filter voided = FALSE for base order tables"]
    use_views := config.2.2 }

/-! ## `intent_and_schema_agent` -/

/-- The parsed reasoning-service response for the combined intent/schema
prompt (what `json.loads` yields, with the `.get` defaults applied). -/
structure LLMResponse where
  intent : String := "unknown"
  confidence : ℚ := 0
  locations : List String := []
  products : List String := []
  categories : List String := []
  order_types : List String := []
  payment_types : List String := []
  sources : List String := []
  metrics : List String := []
  limit : Option Nat := none
  time_start_date : Option String := none
  time_end_date : Option String := none
  time_relative : Option String := none
  needs_clarification : Bool := false
  clarification_question : String := ""
  tables : List String := []
  columns : List (String × List String) := []
  joins : List JoinInfo := []
  considerations : List String := []
  use_views : Bool := false
deriving DecidableEq

/-- Outcome of the reasoning-service round-trip, as seen after code-fence
stripping and `json.loads`: a parsed response, a `json.JSONDecodeError`, or
any other exception (with its message). -/
inductive LLMOutcome
  | parsed (r : LLMResponse)
  | jsonError
  | exn (msg : String)
deriving DecidableEq

/-- The generic clarification prompt of the `json.JSONDecodeError` handler. -/
def parseErrorClarification : String :=
  "I couldn" ++ sqc.toString ++ "t understand your query. Could you please rephrase it?"

/-- Clarification text chosen by the generic exception handler. -/
def exnClarification (error_msg : String) : String :=
  if strContains error_msg "403" || strContains error_msg "Forbidden" then
    "API access denied. Please check your API key and account credits. " ++
      "If using Grok, ensure your account has available credits."
  else if strContains error_msg "401" || strContains error_msg "Unauthorized" then
    "API authentication failed. Please check your API key configuration."
  else
    "An error occurred while processing your query. Please try again."

/-- The slow (LLM) path of `intent_and_schema_agent`: everything from the
`try:` onward, given the outcome of the round-trip. -/
def intentSchemaLLMPath (llm : LLMOutcome) (st : AgentState) (agent_trace : List String) :
    AgentState :=
  match llm with
  | .parsed result =>
      let query_intent := (QueryIntent.ofValue result.intent).getD QueryIntent.unknown
      let extracted_entities : ExtractedEntities :=
        { locations := normalize_locations result.locations
          products := result.products
          categories := normalize_categories result.categories
          order_types := normalize_order_types result.order_types
          payment_types := normalize_payment_types result.payment_types
          sources := normalize_sources result.sources
          metrics := result.metrics
          limit := result.limit }
      let time_range : TimeRange :=
        { start_date := result.time_start_date
          end_date := result.time_end_date
          relative := result.time_relative }
      let confidence := result.confidence
      let needs_clarification := result.needs_clarification || decide (confidence < mkRat 6 10)
      let st := { st with
        query_intent := query_intent
        intent_confidence := confidence
        entities_extracted := extracted_entities
        time_range := time_range
        needs_clarification := needs_clarification
        clarification_question := result.clarification_question }
      if result.tables.isEmpty then
        let st := fallback_schema_analysis st
        { st with agent_trace := agent_trace }
      else
        { st with
          relevant_tables := result.tables
          relevant_columns := result.columns
          required_joins := result.joins
          schema_considerations := result.considerations
          use_views := result.use_views
          agent_trace := agent_trace }
  | .jsonError =>
      let st := { st with
        query_intent := QueryIntent.unknown
        intent_confidence := 0
        needs_clarification := true
        clarification_question := parseErrorClarification }
      let st := fallback_schema_analysis st
      { st with agent_trace := agent_trace }
  | .exn msg =>
      let st := { st with
        clarification_question := exnClarification msg
        query_intent := QueryIntent.unknown
        intent_confidence := 0
        needs_clarification := true }
      let st := fallback_schema_analysis st
      { st with agent_trace := agent_trace }

/-- The `intent_and_schema_agent`.  `score` abstracts the rule-based regex match
totals for this query; `llm` is the reasoning-service oracle, consulted only
on the slow path.  The returned flag records whether the external service was
invoked. -/
def intent_and_schema_agent (score : QueryIntent → Nat) (llm : LLMOutcome)
    (st : AgentState) : AgentState × Bool :=
  let agent_trace := st.agent_trace ++ ["intent_and_schema"]
  let user_query := st.user_query
  match rule_based_intent_detection score user_query with
  | some (intent, confidence) =>
      if mkRat 75 100 ≤ confidence then
        let entities := extract_basic_entities user_query
        let time_range := extract_time_range user_query
        let st := { st with
          query_intent := intent
          intent_confidence := confidence
          entities_extracted := entities
          time_range := time_range
          needs_clarification := false
          clarification_question := "" }
        let st := fallback_schema_analysis st
        ({ st with agent_trace := agent_trace }, false)
      else
        (intentSchemaLLMPath llm st agent_trace, true)
  | none =>
      (intentSchemaLLMPath llm st agent_trace, true)

/-! ## `backend/agents/sql_validator.py` -/

/-- Characters of `s` before the first occurrence of `needle`
(Python `s.split(needle)[0]`). -/
def takeUntilSub (needle : List Char) : List Char → List Char
  | [] => []
  | c :: rest =>
      if (restAfter needle (c :: rest)).isSome then []
      else c :: takeUntilSub needle rest

/-- Characters of `s` after the first occurrence of `needle` (or `[]`). -/
def afterFirstSub (needle : List Char) : List Char → List Char
  | [] => []
  | c :: rest =>
      match restAfter needle (c :: rest) with
      | some rem => rem
      | none => afterFirstSub needle rest

/-- Python `s.split(needle)[1]`: the segment between the first and second
occurrence of `needle`. -/
def splitSecondSeg (needle s : List Char) : List Char :=
  takeUntilSub needle (afterFirstSub needle s)

/-- Fuel-indexed left-to-right non-overlapping replacement of `needle` by
nothing (the fuel, one unit per consumed character, always suffices for the
non-empty needles used). -/
def removeAllSubAux (needle : List Char) : Nat → List Char → List Char
  | _, [] => []
  | 0, s => s
  | Nat.succ fuel, c :: rest =>
      match restAfter needle (c :: rest) with
      | some rem => removeAllSubAux needle fuel rem
      | none => c :: removeAllSubAux needle fuel rest

/-- Python `s.replace(needle, "")`. -/
def removeAllSub (needle : String) (s : List Char) : List Char :=
  removeAllSubAux needle.data (s.length + 1) s

/-- Python `s.strip()` on char lists. -/
def trimChars (s : List Char) : List Char :=
  (dropSpaces (dropSpaces s).reverse).reverse

/-- The `categorical_fields` list of `_context_validation`. -/
def categoricalFields : List String :=
  ["order_type", "location_name", "location_code", "product", "category",
   "payment_type", "source_system", "order_date", "day_of_week"]

/-- The `materialized_views` list of `_context_validation`. -/
def contextMaterializedViews : List String :=
  ["mv_daily_sales_summary", "mv_product_sales_summary", "mv_hourly_sales_pattern",
   "mv_payment_methods_by_source", "mv_order_type_performance", "mv_category_sales_summary",
   "mv_location_performance", "mv_product_location_sales"]

/-- The `_context_validation`: context-aware checks over the SQL and the
session state. -/
def context_validation (sql : String) (st : AgentState) : List VErr × List VWarn :=
  let sql_lower := strLower sql
  -- recommended tables
  let expected_tables := st.relevant_tables
  let warningsA :=
    if !expected_tables.isEmpty then
      let tables_in_sql := expected_tables.filter fun table =>
        strContains sql_lower (strLower table)
      if tables_in_sql.isEmpty then [VWarn.tablesNotUsed expected_tables] else []
    else []
  -- missing GROUP BY with aggregates
  let aggregates := ["sum(", "count(", "avg(", "min(", "max("]
  let has_aggregate := aggregates.any fun agg => strContains sql_lower agg
  let has_group_by := strContains sql_lower "group by"
  let errorsB :=
    if has_aggregate && !has_group_by then
      let select_part0 :=
        if strContains sql_lower "from" then takeUntilSub "from".data sql_lower.data
        else sql_lower.data
      let select_part := trimChars (removeAllSub "select" select_part0)
      let has_categorical := categoricalFields.any fun field =>
        charSeqOccurs field.data select_part
      let comma_count := select_part.count (Char.ofNat 44)
      if comma_count > 0 || has_categorical then [VErr.aggregateWithoutGroupBy] else []
    else []
  -- GROUP BY without ORDER BY
  let warningsC :=
    if !strContains sql_lower "limit" && has_group_by then
      let group_by_part :=
        if strContains sql_lower "group by" then splitSecondSeg "group by".data sql_lower.data
        else []
      if !charSeqOccurs "order by".data group_by_part then [VWarn.groupByNoOrderBy] else []
    else []
  -- date filter when a time range was specified
  let time_range := st.time_range
  let warningsD :=
    if optTruthy time_range.relative || optTruthy time_range.start_date then
      let date_patterns := ["order_date", "payment_date", "created_at"]
      let has_date_filter := date_patterns.any fun pattern => strContains sql_lower pattern
      if !has_date_filter then [VWarn.noDateFilter] else []
    else []
  -- view usage for aggregations
  let use_views := st.use_views
  let warningsE :=
    if use_views then
      let uses_view := contextMaterializedViews.any fun view => strContains sql_lower view
      if !uses_view then [VWarn.viewsRecommendedNotUsed] else []
    else []
  (errorsB, warningsA ++ warningsC ++ warningsD ++ warningsE)

/-- The `sql_validator_agent`. -/
def sql_validator_agent (st : AgentState) : AgentState :=
  let agent_trace := st.agent_trace ++ ["sql_validator"]
  let sql := st.generated_sql
  if sql == "" || strTrim sql == "" then
    { st with
      sql_validation_passed := false
      sql_errors := [VErr.noSqlGenerated]
      sql_warnings := []
      agent_trace := agent_trace }
  else
    let result := SQLValidator.validate sql
    let cv := context_validation sql st
    let all_errors := result.errors ++ cv.1
    let all_warnings := result.warnings ++ cv.2
    let st := { st with
      sql_validation_passed := all_errors.isEmpty
      sql_errors := all_errors
      sql_warnings := all_warnings
      agent_trace := agent_trace }
    if !st.sql_validation_passed then
      if st.retry_count < st.max_retries then
        { st with retry_count := st.retry_count + 1 }
      else st
    else st

/-! ## `backend/agents/sql_generator.py` and `result_validator.py` -/

/-- Outcome of the SQL-generation round-trip: a parsed response (the
`"sql"`, `"explanation"` and `"expected_columns"` fields with their `.get`
defaults), a `json.JSONDecodeError`, or any other exception. -/
inductive GenOutcome
  | ok (sql explanation : String) (expected_columns : List String)
  | jsonError
  | exn (msg : String)
deriving DecidableEq

/-- The `sql_generator_agent`, given the round-trip outcome. -/
def sql_generator_agent (gen : GenOutcome) (st : AgentState) : AgentState :=
  let agent_trace := st.agent_trace ++ ["sql_generator"]
  match gen with
  | .ok sql explanation expected_columns =>
      { st with
        generated_sql := sql
        sql_explanation := explanation
        expected_columns := expected_columns
        agent_trace := agent_trace
        sql_errors := []
        sql_validation_passed := false }
  | .jsonError =>
      { st with
        generated_sql := ""
        sql_explanation := "Failed to generate SQL query"
        sql_errors := [VErr.generatorParseFailure]
        agent_trace := agent_trace }
  | .exn msg =>
      { st with
        generated_sql := ""
        sql_explanation := "Error generating SQL: " ++ msg
        sql_errors := [VErr.generatorException msg]
        agent_trace := agent_trace }

/-- The `result_validator_agent`: the pass-through stub. -/
def result_validator_agent (st : AgentState) : AgentState :=
  let agent_trace := st.agent_trace ++ ["result_validator"]
  { st with results_valid := true, agent_trace := agent_trace }

/-! ## `backend/agent_framework.py` — routers and workflow graph -/

inductive ClarifyRoute
  | clarify
  | schema
deriving DecidableEq

/-- The `should_clarify`. -/
def should_clarify (st : AgentState) : ClarifyRoute :=
  if st.needs_clarification then .clarify else .schema

inductive RetryRoute
  | retry
  | execute
  | error
deriving DecidableEq

/-- The `should_retry`: router after SQL validation. -/
def should_retry (st : AgentState) : RetryRoute :=
  if st.sql_validation_passed then .execute
  else if st.retry_count < st.max_retries then .retry
  else .error

inductive ResultRoute
  | retry
  | viz
deriving DecidableEq

/-- The `should_retry_sql`: router after result validation (it also mutates the
state in its retry branch, which is returned alongside the route). -/
def should_retry_sql (st : AgentState) : ResultRoute × AgentState :=
  if st.results_valid then (.viz, st)
  else if st.sql_corrected then
    if st.result_retry_count < 1 then
      (.retry,
       { st with
         result_retry_count := st.result_retry_count + 1
         sql_validation_passed := false })
    else (.viz, st)
  else (.viz, st)

/-- Graph positions: the four nodes of `create_agent_graph` plus the three
labelled ways of reaching `END` (clarify / max-retries error / viz). -/
inductive Node
  | intent_and_schema
  | generate_sql
  | validate_sql
  | validate_results
  | endClarify
  | endError
  | endDone
deriving DecidableEq

/-- A configuration of the compiled workflow: current node, session state,
and how many times the SQL generator has been invoked (to index its oracle). -/
structure Conf where
  node : Node
  state : AgentState
  genCalls : Nat := 0
deriving DecidableEq

/-- The oracles a run is parameterized by: the rule-based regex score totals,
the intent/schema round-trip outcome, and the outcome of each SQL-generation
round-trip. -/
structure Oracles where
  score : QueryIntent → Nat
  llm : LLMOutcome
  gen : Nat → GenOutcome

/-- One transition of the compiled graph: run the node function of the
current node, then follow its (conditional) edge.  Terminal configurations
are fixed points. -/
def step (o : Oracles) (c : Conf) : Conf :=
  match c.node with
  | .intent_and_schema =>
      let s := (intent_and_schema_agent o.score o.llm c.state).1
      match should_clarify s with
      | .clarify => { c with node := .endClarify, state := s }
      | .schema => { c with node := .generate_sql, state := s }
  | .generate_sql =>
      let s := sql_generator_agent (o.gen c.genCalls) c.state
      { node := .validate_sql, state := s, genCalls := c.genCalls + 1 }
  | .validate_sql =>
      let s := sql_validator_agent c.state
      match should_retry s with
      | .retry => { c with node := .generate_sql, state := s }
      | .execute => { c with node := .validate_results, state := s }
      | .error => { c with node := .endError, state := s }
  | .validate_results =>
      let s := result_validator_agent c.state
      let rs := should_retry_sql s
      match rs.1 with
      | .retry => { c with node := .validate_sql, state := rs.2 }
      | .viz => { c with node := .endDone, state := rs.2 }
  | .endClarify => c
  | .endError => c
  | .endDone => c

/-- The entry configuration of `AgentRunner.process_query`. -/
def initConf (query : String) : Conf :=
  { node := .intent_and_schema, state := create_initial_state query, genCalls := 0 }

/-- The configuration after `n` transitions on the query `query`. -/
def run (o : Oracles) (query : String) (n : Nat) : Conf :=
  (step o)^[n] (initConf query)

/-! ## Counter bookkeeping lemmas -/

lemma fallback_counters (st : AgentState) :
    (fallback_schema_analysis st).retry_count = st.retry_count ∧
    (fallback_schema_analysis st).max_retries = st.max_retries ∧
    (fallback_schema_analysis st).result_retry_count = st.result_retry_count :=
  ⟨rfl, rfl, rfl⟩

lemma llmPath_counters (llm : LLMOutcome) (st : AgentState) (tr : List String) :
    (intentSchemaLLMPath llm st tr).retry_count = st.retry_count ∧
    (intentSchemaLLMPath llm st tr).max_retries = st.max_retries ∧
    (intentSchemaLLMPath llm st tr).result_retry_count = st.result_retry_count := by
  cases llm with
  | parsed r =>
      simp only [intentSchemaLLMPath]
      split <;> exact ⟨rfl, rfl, rfl⟩
  | jsonError => exact ⟨rfl, rfl, rfl⟩
  | exn msg => exact ⟨rfl, rfl, rfl⟩

lemma intent_agent_counters (score : QueryIntent → Nat) (llm : LLMOutcome) (st : AgentState) :
    ((intent_and_schema_agent score llm st).1.retry_count = st.retry_count) ∧
    ((intent_and_schema_agent score llm st).1.max_retries = st.max_retries) ∧
    ((intent_and_schema_agent score llm st).1.result_retry_count = st.result_retry_count) := by
  unfold intent_and_schema_agent
  cases h : rule_based_intent_detection score st.user_query with
  | none => simp only [h]; exact llmPath_counters _ _ _
  | some p =>
      obtain ⟨i, c⟩ := p
      simp only [h]
      by_cases hc : mkRat 75 100 ≤ c
      · simp only [if_pos hc]
        exact ⟨rfl, rfl, rfl⟩
      · simp only [if_neg hc]
        exact llmPath_counters _ _ _

lemma generator_counters (g : GenOutcome) (st : AgentState) :
    ((sql_generator_agent g st).retry_count = st.retry_count) ∧
    ((sql_generator_agent g st).max_retries = st.max_retries) ∧
    ((sql_generator_agent g st).result_retry_count = st.result_retry_count) := by
  cases g <;> exact ⟨rfl, rfl, rfl⟩

lemma result_validator_counters (st : AgentState) :
    ((result_validator_agent st).retry_count = st.retry_count) ∧
    ((result_validator_agent st).max_retries = st.max_retries) ∧
    ((result_validator_agent st).result_retry_count = st.result_retry_count) :=
  ⟨rfl, rfl, rfl⟩

lemma validator_fixed_counters (st : AgentState) :
    ((sql_validator_agent st).max_retries = st.max_retries) ∧
    ((sql_validator_agent st).result_retry_count = st.result_retry_count) := by
  unfold sql_validator_agent
  simp only []
  split
  · exact ⟨rfl, rfl⟩
  · split
    · split
      · exact ⟨rfl, rfl⟩
      · exact ⟨rfl, rfl⟩
    · exact ⟨rfl, rfl⟩

lemma validator_retry_mono (st : AgentState) :
    st.retry_count ≤ (sql_validator_agent st).retry_count := by
  unfold sql_validator_agent
  simp only []
  split
  · exact Nat.le_refl _
  · split
    · split
      · exact Nat.le_succ _
      · exact Nat.le_refl _
    · exact Nat.le_refl _

lemma validator_retry_bound (st : AgentState) (h : st.retry_count ≤ st.max_retries) :
    (sql_validator_agent st).retry_count ≤ st.max_retries := by
  unfold sql_validator_agent
  simp only []
  split
  · exact h
  · split
    · split
      · next hlt => exact Nat.succ_le_of_lt hlt
      · exact h
    · exact h

lemma retry_sql_state (st : AgentState) :
    ((should_retry_sql st).2.retry_count = st.retry_count) ∧
    ((should_retry_sql st).2.max_retries = st.max_retries) ∧
    (st.result_retry_count ≤ (should_retry_sql st).2.result_retry_count) ∧
    (st.result_retry_count ≤ 1 → (should_retry_sql st).2.result_retry_count ≤ 1) := by
  unfold should_retry_sql
  split
  · exact ⟨rfl, rfl, Nat.le_refl _, fun h => h⟩
  · split
    · split
      · next hlt => exact ⟨rfl, rfl, Nat.le_succ _, fun _ => Nat.succ_le_of_lt hlt⟩
      · exact ⟨rfl, rfl, Nat.le_refl _, fun h => h⟩
    · exact ⟨rfl, rfl, Nat.le_refl _, fun h => h⟩

lemma step_counters (o : Oracles) (c : Conf) :
    ((step o c).state.max_retries = c.state.max_retries) ∧
    (c.state.retry_count ≤ (step o c).state.retry_count) ∧
    (c.state.result_retry_count ≤ (step o c).state.result_retry_count) ∧
    (c.state.retry_count ≤ c.state.max_retries →
      (step o c).state.retry_count ≤ (step o c).state.max_retries) ∧
    (c.state.result_retry_count ≤ 1 → (step o c).state.result_retry_count ≤ 1) := by
  obtain ⟨node, st, g⟩ := c
  cases node with
  | intent_and_schema =>
      simp only [step]
      split <;>
        exact ⟨(intent_agent_counters o.score o.llm st).2.1,
          Nat.le_of_eq (intent_agent_counters o.score o.llm st).1.symm,
          Nat.le_of_eq (intent_agent_counters o.score o.llm st).2.2.symm,
          fun h => by
            rw [(intent_agent_counters o.score o.llm st).1,
              (intent_agent_counters o.score o.llm st).2.1]
            exact h,
          fun h => by rw [(intent_agent_counters o.score o.llm st).2.2]; exact h⟩
  | generate_sql =>
      simp only [step]
      exact ⟨(generator_counters (o.gen g) st).2.1,
        Nat.le_of_eq (generator_counters (o.gen g) st).1.symm,
        Nat.le_of_eq (generator_counters (o.gen g) st).2.2.symm,
        fun h => by
          rw [(generator_counters (o.gen g) st).1, (generator_counters (o.gen g) st).2.1]
          exact h,
        fun h => by rw [(generator_counters (o.gen g) st).2.2]; exact h⟩
  | validate_sql =>
      simp only [step]
      split <;>
        exact ⟨(validator_fixed_counters st).1, validator_retry_mono st,
          Nat.le_of_eq (validator_fixed_counters st).2.symm,
          fun h => by rw [(validator_fixed_counters st).1]; exact validator_retry_bound st h,
          fun h => by rw [(validator_fixed_counters st).2]; exact h⟩
  | validate_results =>
      simp only [step]
      split <;>
        exact ⟨(retry_sql_state (result_validator_agent st)).2.1,
          Nat.le_of_eq (retry_sql_state (result_validator_agent st)).1.symm,
          (retry_sql_state (result_validator_agent st)).2.2.1,
          fun h => by
            rw [(retry_sql_state (result_validator_agent st)).1,
              (retry_sql_state (result_validator_agent st)).2.1]
            exact h,
          fun h => (retry_sql_state (result_validator_agent st)).2.2.2 h⟩
  | endClarify => exact ⟨rfl, Nat.le_refl _, Nat.le_refl _, fun h => h, fun h => h⟩
  | endError => exact ⟨rfl, Nat.le_refl _, Nat.le_refl _, fun h => h, fun h => h⟩
  | endDone => exact ⟨rfl, Nat.le_refl _, Nat.le_refl _, fun h => h, fun h => h⟩

lemma step_rrc_exact (o : Oracles) (c : Conf) :
    (step o c).state.result_retry_count = c.state.result_retry_count := by
  obtain ⟨node, st, g⟩ := c
  cases node with
  | intent_and_schema =>
      simp only [step]
      split <;> exact (intent_agent_counters o.score o.llm st).2.2
  | generate_sql => exact (generator_counters (o.gen g) st).2.2
  | validate_sql =>
      simp only [step]
      split <;> exact (validator_fixed_counters st).2
  | validate_results => rfl
  | endClarify => rfl
  | endError => rfl
  | endDone => rfl

lemma step_at_results (o : Oracles) (c : Conf) (h : c.node = Node.validate_results) :
    (step o c).node = Node.endDone ∧ (step o c).state.results_valid = true := by
  obtain ⟨node, st, g⟩ := c
  subst h
  exact ⟨rfl, rfl⟩

/-- C10: in every run of the compiled workflow, the result-validation stage
sets `results_valid` to `true`, so the `ValidateResults → ValidateSQL`
correction edge is never taken (a `validate_results` configuration always
steps to the `Done` terminal) and `result_retry_count` is `0` at every point
of the run, in particular at termination. -/
theorem c10_result_retry_never_taken (o : Oracles) (q : String) (n : Nat) :
    ((run o q n).node = Node.validate_results →
      (run o q (n + 1)).node = Node.endDone ∧
      (run o q (n + 1)).state.results_valid = true) ∧
    (run o q n).state.result_retry_count = 0 := by
  constructor
  · intro h
    have hs : run o q (n + 1) = step o (run o q n) := Function.iterate_succ_apply' _ _ _
    rw [hs]
    exact step_at_results o _ h
  · induction n with
    | zero => rfl
    | succ n ih =>
        have hs : run o q (n + 1) = step o (run o q n) := Function.iterate_succ_apply' _ _ _
        rw [hs, step_rrc_exact]
        exact ih

/-- C10 witness: a concrete completed run (high-confidence rule-based
classification, then a generator output that passes validation) that visits
`validate_results` and terminates in `Done` with `result_retry_count = 0`. -/
def scoreSalesOnly : QueryIntent → Nat :=
  fun i => if i == QueryIntent.sales_analysis then 2 else 0

def oracleValidSql : Oracles :=
  { score := scoreSalesOnly
    llm := LLMOutcome.jsonError
    gen := fun _ => GenOutcome.ok
      "SELECT order_date, SUM(total_revenue) FROM mv_daily_sales_summary GROUP BY order_date ORDER BY order_date LIMIT 10"
      "" [] }

theorem c10_result_retry_never_taken_witness :
    (run oracleValidSql "total revenue" 3).node = Node.validate_results ∧
    (run oracleValidSql "total revenue" 4).node = Node.endDone ∧
    (run oracleValidSql "total revenue" 4).state.results_valid = true ∧
    (run oracleValidSql "total revenue" 4).state.result_retry_count = 0 := by
  refine ⟨by decide, ?_, ?_, ?_⟩
  · exact ((c10_result_retry_never_taken oracleValidSql "total revenue" 3).1 (by decide)).1
  · exact ((c10_result_retry_never_taken oracleValidSql "total revenue" 3).1 (by decide)).2
  · exact (c10_result_retry_never_taken oracleValidSql "total revenue" 4).2

/-- C3: in every session and at every observation point (any number of
transitions from the initial state, under any oracles), `retry_count` never
exceeds `max_retries`, `result_retry_count` never exceeds `1` (the
result-retry budget), and both counters are monotonically non-decreasing
from each configuration to the next. -/
theorem c3_retry_counters_bounded_monotone (o : Oracles) (q : String) (n : Nat) :
    ((run o q n).state.retry_count ≤ (run o q n).state.max_retries ∧
     (run o q n).state.result_retry_count ≤ 1) ∧
    ((run o q n).state.retry_count ≤ (run o q (n + 1)).state.retry_count ∧
     (run o q n).state.result_retry_count ≤ (run o q (n + 1)).state.result_retry_count) := by
  have hs : ∀ m : Nat, run o q (m + 1) = step o (run o q m) := fun m =>
    Function.iterate_succ_apply' _ _ _
  constructor
  · induction n with
    | zero => exact ⟨Nat.zero_le _, Nat.zero_le _⟩
    | succ n ih =>
        rw [hs n]
        exact ⟨(step_counters o (run o q n)).2.2.2.1 ih.1,
          (step_counters o (run o q n)).2.2.2.2 ih.2⟩
  · rw [hs n]
    exact ⟨(step_counters o (run o q n)).2.1, (step_counters o (run o q n)).2.2.1⟩

/-! ## C2: the mutation-denylist safety invariant -/

/-- Does the SQL contain a denylisted mutating keyword as a whole word,
case-insensitively (check 1 of the validator)? -/
def containsDangerousKeyword (sql : String) : Bool :=
  SQLValidator.DANGEROUS_KEYWORDS.any fun kw => strWordOccurs (strUpper sql) kw

lemma danger_mem_errors (sql kw : String) (hkw : kw ∈ SQLValidator.DANGEROUS_KEYWORDS)
    (h : strWordOccurs (strUpper sql) kw = true) :
    VErr.dangerousKeyword kw ∈ (SQLValidator.validate sql).errors := by
  simp only [SQLValidator.validate, List.mem_append]
  refine Or.inl (Or.inl (Or.inl (Or.inl ?_)))
  exact List.mem_filterMap.mpr ⟨kw, hkw, by simp [h]⟩

lemma validate_errors_nil_no_danger (sql : String)
    (h : (SQLValidator.validate sql).errors = []) :
    containsDangerousKeyword sql = false := by
  by_cases hc : containsDangerousKeyword sql = true
  · obtain ⟨kw, hkw, hw⟩ := List.any_eq_true.mp hc
    have hm := danger_mem_errors sql kw hkw hw
    rw [h] at hm
    exact absurd hm (List.not_mem_nil _)
  · exact Bool.eq_false_iff.mpr hc

lemma validator_generated_sql (st : AgentState) :
    (sql_validator_agent st).generated_sql = st.generated_sql := by
  unfold sql_validator_agent
  simp only []
  split
  · rfl
  · split
    · split
      · rfl
      · rfl
    · rfl

lemma validator_passed_sound (st : AgentState)
    (h : (sql_validator_agent st).sql_validation_passed = true) :
    (SQLValidator.validate st.generated_sql).errors = [] := by
  unfold sql_validator_agent at h
  simp only [] at h
  split at h
  · exact absurd h (by simp)
  · split at h
    · split at h
      · exact (List.append_eq_nil.mp (List.isEmpty_iff.mp h)).1
      · exact (List.append_eq_nil.mp (List.isEmpty_iff.mp h)).1
    · exact (List.append_eq_nil.mp (List.isEmpty_iff.mp h)).1

lemma should_retry_execute_passed (st : AgentState)
    (h : should_retry st = RetryRoute.execute) :
    st.sql_validation_passed = true := by
  by_contra hq
  unfold should_retry at h
  rw [if_neg hq] at h
  split at h <;> exact absurd h (by simp)

/-- A configuration is safe when, at the `validate_results` node or the
`Done` terminal, the generated SQL of the session is free of denylisted
keywords. -/
def ConfSafe (c : Conf) : Prop :=
  (c.node = Node.validate_results ∨ c.node = Node.endDone) →
    containsDangerousKeyword c.state.generated_sql = false

lemma step_safe (o : Oracles) (c : Conf) (hc : ConfSafe c) : ConfSafe (step o c) := by
  obtain ⟨node, st, g⟩ := c
  cases node with
  | intent_and_schema =>
      simp only [ConfSafe, step]
      split <;> (intro h; exact absurd h (by simp))
  | generate_sql =>
      intro h
      exact absurd h (by simp [step])
  | validate_sql =>
      simp only [ConfSafe, step]
      split
      · intro h
        exact absurd h (by simp)
      · next heq =>
          intro _
          have hp := should_retry_execute_passed _ heq
          rw [validator_generated_sql st]
          exact validate_errors_nil_no_danger _ (validator_passed_sound st hp)
      · intro h
        exact absurd h (by simp)
  | validate_results =>
      intro _
      exact hc (Or.inl rfl)
  | endClarify => exact hc
  | endError => exact hc
  | endDone => exact hc

/-- C2: in every run, under any oracles, if the workflow reaches the `Done`
terminal then the generated SQL it carries contains no denylisted mutating
keyword (DROP, DELETE, UPDATE, INSERT, ALTER, CREATE, TRUNCATE, GRANT,
REVOKE, EXECUTE, EXEC, MERGE, REPLACE) as a whole word, case-insensitively:
the only edge into `Done` requires `sql_validation_passed = true`, which
holds only when the error list — including every denylist error — is empty. -/
theorem c2_no_dangerous_sql_reaches_done (o : Oracles) (q : String) (n : Nat)
    (h : (run o q n).node = Node.endDone) :
    containsDangerousKeyword (run o q n).state.generated_sql = false := by
  have hsafe : ∀ m : Nat, ConfSafe (run o q m) := by
    intro m
    induction m with
    | zero =>
        intro hz
        rcases hz with hz | hz <;> exact Node.noConfusion hz
    | succ m ih =>
        have hs : run o q (m + 1) = step o (run o q m) := Function.iterate_succ_apply' _ _ _
        rw [hs]
        exact step_safe o _ ih
  exact hsafe n (Or.inr h)

/-- C2 witness: the concrete completed run of `oracleValidSql` terminates in
`Done`, and the theorem yields that its SQL is denylist-free. -/
theorem c2_no_dangerous_sql_reaches_done_witness :
    (run oracleValidSql "total revenue" 4).node = Node.endDone ∧
    containsDangerousKeyword (run oracleValidSql "total revenue" 4).state.generated_sql = false :=
  ⟨by decide, c2_no_dangerous_sql_reaches_done oracleValidSql "total revenue" 4 (by decide)⟩

/-! ## C1: the SQL-retry loop at the default budget -/

def oracleFailingSql : Oracles :=
  { score := scoreSalesOnly
    llm := LLMOutcome.jsonError
    gen := fun _ => GenOutcome.ok "DROP TABLE users" "" [] }

/-- C1 (code bug): at the failing input — a default session
(`retry_count = 0`, `max_retries = 1`) whose first generated SQL fails
validation — the workflow terminates in `Error` immediately: the validator
node increments `retry_count` to `1` before the router runs, the router then
sees `1 < 1` false and routes to `Error`, so the generator is invoked exactly
once and the promised `GenerateSQL → ValidateSQL` retry loop never happens. -/
theorem c1_first_failure_skips_retry :
    (run oracleFailingSql "total revenue" 2).node = Node.validate_sql ∧
    (run oracleFailingSql "total revenue" 2).state.retry_count = 0 ∧
    (run oracleFailingSql "total revenue" 2).state.max_retries = 1 ∧
    (run oracleFailingSql "total revenue" 3).node = Node.endError ∧
    (run oracleFailingSql "total revenue" 3).state.retry_count = 1 ∧
    (run oracleFailingSql "total revenue" 3).genCalls = 1 ∧
    (run oracleFailingSql "total revenue" 3).state.agent_trace.count "sql_generator" = 1 ∧
    (run oracleFailingSql "total revenue" 3).state.sql_validation_passed = false :=
  ⟨by decide, by decide, by decide, by decide, by decide, by decide, by decide, by decide⟩

/-! ## C4: the unit-conversion rule -/

/-- C4 counterexample: the claim asserts that
`SELECT SUM(total_cents) FROM orders_fact` fails validation, but the
validator requires one of its base cents tables (`unified_orders`,
`unified_order_items`, `unified_payments`) to appear in the SQL, and
`orders_fact` is not among them — the query passes with no errors. -/
theorem c4_counterexample :
    (SQLValidator.validate "SELECT SUM(total_cents) FROM orders_fact").errors = [] ∧
    (SQLValidator.validate "SELECT SUM(total_cents) FROM orders_fact").is_valid = true :=
  ⟨by decide, by decide⟩

/-- C4 (amended): for every SQL text in which a `*_cents` column name
appears, a base cents-table name appears, and no `/100` pattern is present,
validation reports the missing-conversion error; in particular
`SELECT SUM(total_cents) FROM unified_orders` fails that rule while
`SELECT SUM(total_cents)/100.0 FROM unified_orders WHERE voided = FALSE`
passes it. -/
theorem c4_cents_conversion_rule :
    (∀ sql : String,
        (SQLValidator.CENTS_COLUMNS.any fun col => strContains (strLower sql) col) = true →
        (SQLValidator.CENTS_TABLES.any fun table => strContains (strLower sql) table) = true →
        (strContains sql "/100" || strContains sql "/ 100") = false →
        VErr.centsWithoutDivision ∈ (SQLValidator.validate sql).errors) ∧
    VErr.centsWithoutDivision ∈
      (SQLValidator.validate "SELECT SUM(total_cents) FROM unified_orders").errors ∧
    VErr.centsWithoutDivision ∉
      (SQLValidator.validate
        "SELECT SUM(total_cents)/100.0 FROM unified_orders WHERE voided = FALSE").errors := by
  refine ⟨?_, by decide, by decide⟩
  intro sql h1 h2 h3
  simp only [SQLValidator.validate, List.mem_append]
  refine Or.inl (Or.inl (Or.inr ?_))
  simp [h1, h2, h3]

/-- C4 witness: the general rule applied at a concrete input. -/
theorem c4_cents_conversion_rule_witness :
    VErr.centsWithoutDivision ∈
      (SQLValidator.validate "SELECT subtotal_cents FROM unified_payments").errors :=
  c4_cents_conversion_rule.1 "SELECT subtotal_cents FROM unified_payments"
    (by decide) (by decide) (by decide)

/-! ## C5: entity canonicalization -/

/-- C5 counterexample: the claim asserts every entity kind returns unseen
tokens uppercased, but the source canonicalizer returns unseen sources
lowercased — mapping the unseen token `"foo"` does not yield `"FOO"`. -/
theorem c5_counterexample : normalize_sources ["foo"] ≠ ["FOO"] := by decide

/-- C5 (amended): each canonicalizer maps a token found in its vocabulary
(matched case-insensitively) to the canonical code; unseen tokens come back
uppercased for locations, order types and payment types, but lowercased for
sources and unchanged for categories.  All are pure functions, so the output
is the same on every call; mapping `"downtown"` yields `"DOWNTOWN"` and
mapping the unseen `"foo"` through the source canonicalizer yields `"foo"`. -/
theorem c5_canonicalization_behavior :
    (∀ t c, vocabLookup SchemaKnowledge.locations (strLower t) = some c →
      normalize_locations [t] = [c]) ∧
    (∀ t, vocabLookup SchemaKnowledge.locations (strLower t) = none →
      normalize_locations [t] = [strUpper t]) ∧
    (∀ t c, vocabLookup SchemaKnowledge.order_types (strLower t) = some c →
      normalize_order_types [t] = [c]) ∧
    (∀ t, vocabLookup SchemaKnowledge.order_types (strLower t) = none →
      normalize_order_types [t] = [strUpper t]) ∧
    (∀ t c, vocabLookup SchemaKnowledge.payment_types (strLower t) = some c →
      normalize_payment_types [t] = [c]) ∧
    (∀ t, vocabLookup SchemaKnowledge.payment_types (strLower t) = none →
      normalize_payment_types [t] = [strUpper t]) ∧
    (∀ t c, vocabLookup SchemaKnowledge.sources (strLower t) = some c →
      normalize_sources [t] = [c]) ∧
    (∀ t, vocabLookup SchemaKnowledge.sources (strLower t) = none →
      normalize_sources [t] = [strLower t]) ∧
    (∀ t c, vocabLookup SchemaKnowledge.categories (strLower t) = some c →
      normalize_categories [t] = [c]) ∧
    (∀ t, vocabLookup SchemaKnowledge.categories (strLower t) = none →
      normalize_categories [t] = [t]) ∧
    normalize_locations ["downtown"] = ["DOWNTOWN"] ∧
    normalize_sources ["foo"] = ["foo"] := by
  refine ⟨fun t c h => ?_, fun t h => ?_, fun t c h => ?_, fun t h => ?_, fun t c h => ?_,
    fun t h => ?_, fun t c h => ?_, fun t h => ?_, fun t c h => ?_, fun t h => ?_,
    by decide, by decide⟩
  · simp [normalize_locations, h]
  · simp [normalize_locations, h]
  · simp [normalize_order_types, h]
  · simp [normalize_order_types, h]
  · simp [normalize_payment_types, h]
  · simp [normalize_payment_types, h]
  · simp [normalize_sources, h]
  · simp [normalize_sources, h]
  · simp [normalize_categories, h]
  · simp [normalize_categories, h]

/-- C5 witness: the amended characterization applied at concrete tokens. -/
theorem c5_canonicalization_behavior_witness :
    normalize_locations ["Downtown"] = ["DOWNTOWN"] ∧
    normalize_sources ["DoorDash"] = ["doordash"] ∧
    normalize_order_types ["weird"] = ["WEIRD"] :=
  ⟨c5_canonicalization_behavior.1 "Downtown" "DOWNTOWN" (by decide),
   c5_canonicalization_behavior.2.2.2.2.2.2.1 "DoorDash" "doordash" (by decide),
   c5_canonicalization_behavior.2.2.2.1 "weird" (by decide)⟩

/-! ## C8: validator determinism / noninterference -/

lemma context_validation_congr (sql : String) (s1 s2 : AgentState)
    (ht : s1.relevant_tables = s2.relevant_tables)
    (hr : s1.time_range = s2.time_range)
    (hv : s1.use_views = s2.use_views) :
    context_validation sql s1 = context_validation sql s2 := by
  unfold context_validation
  rw [ht, hr, hv]

lemma validator_errors_warnings (st : AgentState) :
    ((sql_validator_agent st).sql_errors, (sql_validator_agent st).sql_warnings) =
      if (st.generated_sql == "" || strTrim st.generated_sql == "") = true then
        ([VErr.noSqlGenerated], [])
      else
        ((SQLValidator.validate st.generated_sql).errors ++
            (context_validation st.generated_sql st).1,
         (SQLValidator.validate st.generated_sql).warnings ++
            (context_validation st.generated_sql st).2) := by
  unfold sql_validator_agent
  simp only []
  split
  · rfl
  · split
    · split
      · rfl
      · rfl
    · rfl

/-- C8: the SQL validation stage — base rules plus context checks — is a
deterministic pure function of the SQL text and the session-state fields it
reads (`relevant_tables`, `time_range`, `use_views`): two states agreeing on
those inputs and carrying the same SQL produce identical error lists and
identical warning lists. -/
theorem c8_validator_deterministic (sql : String) (s1 s2 : AgentState)
    (ht : s1.relevant_tables = s2.relevant_tables)
    (hr : s1.time_range = s2.time_range)
    (hv : s1.use_views = s2.use_views) :
    (sql_validator_agent { s1 with generated_sql := sql }).sql_errors
      = (sql_validator_agent { s2 with generated_sql := sql }).sql_errors ∧
    (sql_validator_agent { s1 with generated_sql := sql }).sql_warnings
      = (sql_validator_agent { s2 with generated_sql := sql }).sql_warnings := by
  have h1 := validator_errors_warnings { s1 with generated_sql := sql }
  have h2 := validator_errors_warnings { s2 with generated_sql := sql }
  have hcv : context_validation sql { s1 with generated_sql := sql }
      = context_validation sql { s2 with generated_sql := sql } :=
    context_validation_congr sql _ _ ht hr hv
  rw [Prod.ext_iff] at h1 h2
  by_cases hsql : (sql == "" || strTrim sql == "") = true
  · rw [if_pos hsql] at h1 h2
    exact ⟨h1.1.trans h2.1.symm, h1.2.trans h2.2.symm⟩
  · rw [if_neg hsql] at h1 h2
    refine ⟨h1.1.trans ?_, h1.2.trans ?_⟩
    · rw [hcv]
      exact h2.1.symm
    · rw [hcv]
      exact h2.2.symm

/-- C8 witness: two sessions identical in the fields the validator reads but
differing elsewhere yield the same errors and warnings on the same SQL. -/
theorem c8_validator_deterministic_witness :
    (sql_validator_agent
        { ({ user_query := "a" } : AgentState) with generated_sql := "SELECT 1" }).sql_errors
      = (sql_validator_agent
        { ({ user_query := "b" } : AgentState) with generated_sql := "SELECT 1" }).sql_errors ∧
    (sql_validator_agent
        { ({ user_query := "a" } : AgentState) with generated_sql := "SELECT 1" }).sql_warnings
      = (sql_validator_agent
        { ({ user_query := "b" } : AgentState) with generated_sql := "SELECT 1" }).sql_warnings :=
  c8_validator_deterministic "SELECT 1" { user_query := "a" } { user_query := "b" } rfl rfl rfl

/-! ## C6: fast-path exclusivity -/

/-- C6: whenever the rule-based classifier yields confidence at least 0.75
(`mkRat 75 100`), the agent takes the fast path: intent, confidence, the
pattern-extracted entities and time range, and the heuristic fallback schema
are set, `needs_clarification` is cleared — and the result is the same for
every reasoning-service oracle `llm`, with the invocation flag `false`: the
external semantic classifier is never consulted. -/
theorem c6_fast_path_exclusive (score : QueryIntent → Nat) (llm : LLMOutcome)
    (st : AgentState) (i : QueryIntent) (c : ℚ)
    (h : rule_based_intent_detection score st.user_query = some (i, c))
    (hc : mkRat 75 100 ≤ c) :
    intent_and_schema_agent score llm st =
      ({ fallback_schema_analysis
            { st with
              query_intent := i
              intent_confidence := c
              entities_extracted := extract_basic_entities st.user_query
              time_range := extract_time_range st.user_query
              needs_clarification := false
              clarification_question := "" } with
          agent_trace := st.agent_trace ++ ["intent_and_schema"] }, false) := by
  unfold intent_and_schema_agent
  simp only [h]
  rw [if_pos hc]

/-- C6 witness: a concrete high-confidence query, under two different LLM
oracles, never consults the service (flag `false`) and does not clarify. -/
theorem c6_fast_path_exclusive_witness :
    (intent_and_schema_agent scoreSalesOnly (LLMOutcome.exn "boom")
        (create_initial_state "total revenue")).2 = false ∧
    (intent_and_schema_agent scoreSalesOnly (LLMOutcome.exn "boom")
        (create_initial_state "total revenue")).1.needs_clarification = false := by
  have h := c6_fast_path_exclusive scoreSalesOnly (LLMOutcome.exn "boom")
    (create_initial_state "total revenue") QueryIntent.sales_analysis (mkRat 75 100)
    (by decide) (by decide)
  rw [h]
  exact ⟨rfl, rfl⟩

/-! ## C9: parse-error recovery in the classification stage -/

lemma agent_slow_path (score : QueryIntent → Nat) (llm : LLMOutcome) (st : AgentState)
    (h : ∀ i c, rule_based_intent_detection score st.user_query = some (i, c) →
      c < mkRat 75 100) :
    intent_and_schema_agent score llm st =
      (intentSchemaLLMPath llm st (st.agent_trace ++ ["intent_and_schema"]), true) := by
  unfold intent_and_schema_agent
  cases hr : rule_based_intent_detection score st.user_query with
  | none => simp only [hr]
  | some p =>
      obtain ⟨i, c⟩ := p
      simp only [hr]
      rw [if_neg (not_le.mpr (h i c hr))]

/-- C9: when the reasoning-service response is missing or garbled JSON, the
classification stage (on its slow path) recovers without raising: it sets
intent `unknown` with confidence 0, falls back to the heuristic schema
analysis, and marks `needs_clarification = true` with the generic
clarification prompt; and on a successful parse, `needs_clarification`
equals the explicit flag of the response OR-ed with `confidence < 0.6`
(`mkRat 6 10`). -/
theorem c9_parse_error_recovery (score : QueryIntent → Nat) (st : AgentState)
    (h : ∀ i c, rule_based_intent_detection score st.user_query = some (i, c) →
      c < mkRat 75 100) :
    ((intent_and_schema_agent score LLMOutcome.jsonError st).1 =
        { fallback_schema_analysis
            { st with
              query_intent := QueryIntent.unknown
              intent_confidence := 0
              needs_clarification := true
              clarification_question := parseErrorClarification } with
          agent_trace := st.agent_trace ++ ["intent_and_schema"] } ∧
      (intent_and_schema_agent score LLMOutcome.jsonError st).1.needs_clarification = true) ∧
    (∀ r : LLMResponse,
      (intent_and_schema_agent score (LLMOutcome.parsed r) st).1.needs_clarification
        = (r.needs_clarification || decide (r.confidence < mkRat 6 10))) := by
  refine ⟨⟨?_, ?_⟩, ?_⟩
  · rw [agent_slow_path score LLMOutcome.jsonError st h]
    exact rfl
  · rw [agent_slow_path score LLMOutcome.jsonError st h]
    exact rfl
  · intro r
    rw [agent_slow_path score (LLMOutcome.parsed r) st h]
    simp only [intentSchemaLLMPath]
    split
    · rfl
    · rfl

/-- C9 witness: with no rule-based match, a garbled response marks
clarification, and a parsed response with confidence 0.5 computes the
flag-or-threshold disjunction. -/
theorem c9_parse_error_recovery_witness :
    (intent_and_schema_agent (fun _ => 0) LLMOutcome.jsonError
        (create_initial_state "gibberish")).1.needs_clarification = true ∧
    (intent_and_schema_agent (fun _ => 0)
        (LLMOutcome.parsed { confidence := mkRat 1 2 })
        (create_initial_state "gibberish")).1.needs_clarification
      = (false || decide ((mkRat 1 2 : ℚ) < mkRat 6 10)) := by
  have hnone : ∀ i c,
      rule_based_intent_detection (fun _ => 0) (create_initial_state "gibberish").user_query
        = some (i, c) → c < mkRat 75 100 := by
    intro i c hic
    rw [show rule_based_intent_detection (fun _ => 0)
        (create_initial_state "gibberish").user_query = none from by decide] at hic
    exact Option.noConfusion hic
  exact ⟨(c9_parse_error_recovery (fun _ => 0) (create_initial_state "gibberish") hnone).1.2,
    (c9_parse_error_recovery (fun _ => 0) (create_initial_state "gibberish") hnone).2
      { confidence := mkRat 1 2 }⟩


/-! ## C7: the rule-based classifier output contract -/

lemma mkRat_75_100 : (mkRat 75 100 : ℚ) = 75 / 100 := by
  rw [Rat.mkRat_eq_div]
  norm_num

lemma mkRat_6_10 : (mkRat 6 10 : ℚ) = 6 / 10 := by
  rw [Rat.mkRat_eq_div]
  norm_num

/-- The integer-hundredths confidence of the embedding is exactly the
`min(0.95, 0.75 + (maxScore - 2) * 0.08)` of the source. -/
lemma ruleConfidenceFormula (k : Nat) :
    (mkRat (min 95 (75 + 8 * ((k : ℤ) - 2))) 100 : ℚ)
      = min (95 / 100 : ℚ) (75 / 100 + ((k : ℚ) - 2) * (8 / 100)) := by
  rw [Rat.mkRat_eq_div]
  push_cast
  rw [← min_div_div_right (by norm_num : (0 : ℚ) ≤ 100)]
  congr 1
  ring

lemma base_nil_all_zero (score : QueryIntent → Nat)
    (h : intentOrder.filterMap
        (fun i => if score i > 0 then some (i, score i) else none) = []) :
    ∀ i ∈ intentOrder, score i = 0 := by
  intro i hi
  have hf := List.filterMap_eq_nil_iff.mp h i hi
  by_contra hne
  have hpos : score i > 0 := Nat.pos_of_ne_zero hne
  simp [hpos] at hf

lemma ruleIntentScores_eq_nil_iff (score : QueryIntent → Nat) (ql : String) :
    ruleIntentScores score ql = [] ↔ ∀ i ∈ intentOrder, score i = 0 := by
  unfold ruleIntentScores
  constructor
  · intro h
    simp only [] at h
    split at h
    · split at h
      · exact base_nil_all_zero score (List.map_eq_nil_iff.mp h)
      · exact base_nil_all_zero score h
    · exact base_nil_all_zero score h
  · intro hz
    have hbase : intentOrder.filterMap
        (fun i => if score i > 0 then some (i, score i) else none) = [] := by
      rw [List.filterMap_eq_nil_iff]
      intro i hi
      simp [hz i hi]
    simp [hbase]

lemma ruleIntentScores_pos (score : QueryIntent → Nat) (ql : String) :
    ∀ p ∈ ruleIntentScores score ql, 0 < p.2 := by
  have hbase : ∀ p ∈ intentOrder.filterMap
      (fun i => if score i > 0 then some (i, score i) else none), 0 < p.2 := by
    intro p hp
    obtain ⟨i, _, hf⟩ := List.mem_filterMap.mp hp
    by_cases hpos : score i > 0
    · rw [if_pos hpos] at hf
      cases hf
      exact hpos
    · rw [if_neg hpos] at hf
      exact Option.noConfusion hf
  intro p hp
  unfold ruleIntentScores at hp
  simp only [] at hp
  split at hp
  · split at hp
    · obtain ⟨p0, hp0, hg⟩ := List.mem_map.mp hp
      by_cases hcat : (p0.1 == QueryIntent.category_analysis) = true
      · rw [if_pos hcat] at hg
        cases hg
        exact Nat.lt_of_lt_of_le (hbase p0 hp0) (Nat.le_add_right _ _)
      · rw [if_neg hcat] at hg
        cases hg
        exact hbase _ hp0
    · exact hbase p hp
  · exact hbase p hp

lemma maxScoreOf_cons (x : QueryIntent × Nat) (xs : List (QueryIntent × Nat)) :
    maxScoreOf (x :: xs) = Nat.max x.2 (maxScoreOf xs) := rfl

lemma maxScoreOf_ge (scores : List (QueryIntent × Nat)) (p : QueryIntent × Nat)
    (hp : p ∈ scores) : p.2 ≤ maxScoreOf scores := by
  induction scores with
  | nil => cases hp
  | cons x xs ih =>
      rw [maxScoreOf_cons]
      rcases List.mem_cons.mp hp with rfl | hp
      · exact Nat.le_max_left _ _
      · exact Nat.le_trans (ih hp) (Nat.le_max_right _ _)

lemma maxScoreOf_pos (score : QueryIntent → Nat) (ql : String)
    (h : ruleIntentScores score ql ≠ []) :
    0 < maxScoreOf (ruleIntentScores score ql) := by
  obtain ⟨x, xs, hx⟩ := List.exists_cons_of_ne_nil h
  have hmem : x ∈ ruleIntentScores score ql := by
    rw [hx]
    exact List.mem_cons_self _ _
  exact Nat.lt_of_lt_of_le (ruleIntentScores_pos score ql x hmem)
    (maxScoreOf_ge _ x hmem)

/-- Reduction of `rule_based_intent_detection` once the first maximal score
entry is known. -/
lemma rule_based_eq_of_firstMax (score : QueryIntent → Nat) (q : String)
    (best : QueryIntent × Nat)
    (hbest : firstMaxPair (ruleIntentScores score (strLower q)) = some best) :
    rule_based_intent_detection score q =
      (if (decide (2 ≤ maxScoreOf (ruleIntentScores score (strLower q))) &&
            (secondScoreOf (ruleIntentScores score (strLower q)) == 0 ||
              decide (2 * secondScoreOf (ruleIntentScores score (strLower q)) ≤
                maxScoreOf (ruleIntentScores score (strLower q))))) = true then
        some (best.1,
          mkRat (min 95 (75 + 8 * ((maxScoreOf (ruleIntentScores score (strLower q)) : ℤ) - 2)))
            100)
      else if 1 ≤ maxScoreOf (ruleIntentScores score (strLower q)) then
        if (secondScoreOf (ruleIntentScores score (strLower q)) == 0) = true then
          some (best.1, mkRat 75 100)
        else some (best.1, mkRat 6 10)
      else none) := by
  have hne : ruleIntentScores score (strLower q) ≠ [] := by
    intro hnil
    rw [hnil] at hbest
    exact Option.noConfusion hbest
  unfold rule_based_intent_detection
  rw [if_neg (by simp [List.isEmpty_iff, hne]), hbest]

lemma rule_based_none_iff (score : QueryIntent → Nat) (q : String) :
    rule_based_intent_detection score q = none ↔
      ruleIntentScores score (strLower q) = [] := by
  constructor
  · intro h
    by_contra hne
    have hpos := maxScoreOf_pos score (strLower q) hne
    obtain ⟨x, xs, hx⟩ := List.exists_cons_of_ne_nil hne
    have hbest : firstMaxPair (ruleIntentScores score (strLower q))
        = some (xs.foldl (fun b y => if y.2 > b.2 then y else b) x) := by
      rw [hx]
      rfl
    rw [rule_based_eq_of_firstMax score q _ hbest] at h
    split at h
    · exact Option.noConfusion h
    · split at h
      · split at h <;> exact Option.noConfusion h
      · next hguard => exact hguard hpos
  · intro h
    unfold rule_based_intent_detection
    simp [h]

/-- C7: the rule-based intent classifier returns `none` exactly when no
intent scores positive; otherwise it returns the argmax intent (the first
maximal entry of the insertion-ordered, boosted score table), with
confidence `min(0.95, 0.75 + 0.08*(maxScore-2))` when `maxScore ≥ 2` and
(`secondScore = 0` or `maxScore ≥ 2*secondScore`); confidence `0.75` when
`maxScore = 1` with no competing intent; and confidence `0.6` when the top
score is tied. -/
theorem c7_rule_based_output (score : QueryIntent → Nat) (q : String) :
    (rule_based_intent_detection score q = none ↔ ∀ i ∈ intentOrder, score i = 0) ∧
    (∀ best, firstMaxPair (ruleIntentScores score (strLower q)) = some best →
      ((2 ≤ maxScoreOf (ruleIntentScores score (strLower q)) ∧
          (secondScoreOf (ruleIntentScores score (strLower q)) = 0 ∨
            2 * secondScoreOf (ruleIntentScores score (strLower q)) ≤
              maxScoreOf (ruleIntentScores score (strLower q)))) →
        rule_based_intent_detection score q =
          some (best.1,
            min (95 / 100 : ℚ)
              (75 / 100 +
                ((maxScoreOf (ruleIntentScores score (strLower q)) : ℚ) - 2) * (8 / 100)))) ∧
      ((maxScoreOf (ruleIntentScores score (strLower q)) = 1 ∧
          secondScoreOf (ruleIntentScores score (strLower q)) = 0) →
        rule_based_intent_detection score q = some (best.1, 75 / 100)) ∧
      ((0 < maxScoreOf (ruleIntentScores score (strLower q)) ∧
          secondScoreOf (ruleIntentScores score (strLower q)) =
            maxScoreOf (ruleIntentScores score (strLower q))) →
        rule_based_intent_detection score q = some (best.1, 6 / 10))) := by
  constructor
  · exact (rule_based_none_iff score q).trans (ruleIntentScores_eq_nil_iff score (strLower q))
  · intro best hbest
    refine ⟨?_, ?_, ?_⟩
    · rintro ⟨h2, hsec⟩
      rw [rule_based_eq_of_firstMax score q best hbest]
      rw [if_pos (by
        simp only [Bool.and_eq_true, Bool.or_eq_true, decide_eq_true_eq, beq_iff_eq]
        exact ⟨h2, hsec.imp id id⟩)]
      rw [ruleConfidenceFormula]
    · rintro ⟨h1, hsec⟩
      rw [rule_based_eq_of_firstMax score q best hbest]
      rw [if_neg (by simp [h1, hsec]), if_pos (by simp [h1]), if_pos (by simp [hsec])]
      rw [mkRat_75_100]
    · rintro ⟨hpos, htie⟩
      have hsec0 : secondScoreOf (ruleIntentScores score (strLower q)) ≠ 0 := by
        rw [htie]
        exact Nat.pos_iff_ne_zero.mp hpos
      rw [rule_based_eq_of_firstMax score q best hbest]
      rw [if_neg (by
        simp only [Bool.and_eq_true, Bool.or_eq_true, decide_eq_true_eq, beq_iff_eq, not_and,
          not_or]
        intro _
        exact ⟨hsec0, by rw [htie]; omega⟩)]
      rw [if_pos (by omega), if_neg (by simp [hsec0])]
      rw [mkRat_6_10]

/-- C7 witness: the contract applied at concrete score tables — a single
intent with score 3 gets confidence `min(0.95, 0.75 + 0.08*(3-2))`, and the
all-zero table yields `none`. -/
theorem c7_rule_based_output_witness :
    rule_based_intent_detection
        (fun i => if i == QueryIntent.product_analysis then 3 else 0) "top products"
      = some (QueryIntent.product_analysis,
          min (95 / 100 : ℚ)
            (75 / 100 +
              ((maxScoreOf (ruleIntentScores
                  (fun i => if i == QueryIntent.product_analysis then 3 else 0)
                  (strLower "top products")) : ℚ) - 2) * (8 / 100))) ∧
    rule_based_intent_detection (fun _ => 0) "top products" = none :=
  ⟨((c7_rule_based_output
      (fun i => if i == QueryIntent.product_analysis then 3 else 0) "top products").2
      (QueryIntent.product_analysis, 3) (by decide)).1 ⟨by decide, by decide⟩,
   (c7_rule_based_output (fun _ => 0) "top products").1.mpr (by decide)⟩
